import Mathlib

/-!
Shallow embedding of the L'Osteria AI receptionist call-session pipeline
(`main.py`, `audio_converter.py`): the per-call dialog state machine, the
takeaway response flow, the menu-cache staleness check, the audio segmenter,
the transcription gateway, the TTS request builder and the WebSocket
session-registry handler, together with theorems settling the spec claims.
-/

/-- Python `needle.isPrefixOf`-style check on char lists: `leadsWith n h` is
true when `n` is an initial segment of `h`. -/
def leadsWith : List Char → List Char → Bool
  | [], _ => true
  | _ :: _, [] => false
  | a :: as, b :: bs => a == b && leadsWith as bs

/-- Substring occurrence on char lists: true when `needle` occurs contiguously
inside the second list. Models Python's `needle in haystack` on `str`. -/
def subIn (needle : List Char) : List Char → Bool
  | [] => needle.isEmpty
  | c :: rest => leadsWith needle (c :: rest) || subIn needle rest

/-- Python `needle in hay` for strings (contiguous substring test). -/
def pyIn (needle hay : String) : Bool := subIn needle.data hay.data

/-- Python `s.lower()` (ASCII case fold suffices for the keyword lists used
by `main.py`). -/
def pyLower (s : String) : String := String.mk (s.data.map Char.toLower)

/-- Python `s.strip()`: remove leading and trailing whitespace. -/
def pyStrip (s : String) : String :=
  String.mk (((s.data.dropWhile Char.isWhitespace).reverse.dropWhile
    Char.isWhitespace).reverse)

/-- One `(role, content)` turn of `CallSession.conversation_history`. -/
structure HistoryTurn where
  role : String
  content : String
deriving DecidableEq, Repr

/-- Mutable per-call state of `main.py`'s `CallSession` (audio bytes are
modelled as `Nat`s). -/
structure CallSession where
  call_sid : String
  conversation_history : List HistoryTurn
  audio_buffer : List Nat
  is_speaking : Bool
  language : String
  call_state : String
  selected_language : String
  selected_option : String
deriving DecidableEq, Repr

/-- `CallSession.__init__`: defaults to Dutch and jumps straight to the
takeaway flow (`call_state = "takeaway"`), skipping language selection. -/
def CallSession.init (call_sid : String) : CallSession :=
  { call_sid := call_sid
    conversation_history := []
    audio_buffer := []
    is_speaking := false
    language := "nl"
    call_state := "takeaway"
    selected_language := "nl"
    selected_option := "takeaway" }

/-- `CallSession.process_audio_chunk`: append the chunk; when the buffer
exceeds 16000 bytes, transcribe-and-respond fires and the buffer is reset.
The returned `Bool` records whether a clip was drained and transcribed. -/
def process_audio_chunk (s : CallSession) (audio_data : List Nat) :
    CallSession × Bool :=
  if (s.audio_buffer ++ audio_data).length > 16000 then
    ({ s with audio_buffer := [] }, true)
  else ({ s with audio_buffer := s.audio_buffer ++ audio_data }, false)

/-- `TwilioAudioConverter` state (`audio_converter.py`): per-chunk buffer,
fixed 8 kHz sample rate and 1000 ms minimum duration. -/
structure TwilioAudioConverter where
  sample_rate : Nat := 8000
  audio_buffer : List (List Nat) := []
  min_duration_ms : Nat := 1000
deriving Repr

/-- `TwilioAudioConverter.should_transcribe`: total buffered bytes, divided by
the sample rate and scaled to milliseconds, must reach the minimum duration. -/
def TwilioAudioConverter.should_transcribe (c : TwilioAudioConverter) : Bool :=
  decide ((((c.audio_buffer.map List.length).sum : ℚ) / (c.sample_rate : ℚ)) * 1000
    ≥ (c.min_duration_ms : ℚ))

/-- Outcome of one OpenAI Whisper transcription attempt. -/
inductive TranscribeOutcome where
  | ok (text : String)
  | err
deriving DecidableEq, Repr

/-- `CallSession.transcribe_audio`: with no OpenAI client it returns the demo
placeholder `"test input"`; on an API exception it returns `""`; otherwise the
transcription text. -/
def transcribe_audio (openaiAvailable : Bool) (outcome : TranscribeOutcome) :
    String :=
  if openaiAvailable = false then "test input"
  else
    match outcome with
    | .ok t => t
    | .err => ""

/-- The guard in `CallSession.transcribe_and_respond`: downstream processing
(generation, synthesis) runs only when the stripped transcription is
non-empty. -/
def transcribe_and_respond_proceeds (transcription : String) : Bool :=
  !(pyStrip transcription == "")

/-- Outcome of one GPT-4o chat-completion attempt. -/
inductive GenResult where
  | ok (reply : String)
  | err
deriving DecidableEq, Repr

/-- Result of one dialog turn: updated session, reply text, number of
chat-completion invocations and number of `initiate_transfer` invocations. -/
structure TurnResult where
  session : CallSession
  reply : String
  genCalls : Nat
  transferCalls : Nat
deriving DecidableEq, Repr

/-- The multilingual welcome / language menu emitted by
`CallSession._handle_welcome_state`. -/
def welcome_reply : String :=
  "Benvenuti a L\x27Osteria Deerlijk! Welcome! Bienvenue!\n\nPlease select your language:\n- For Dutch, press 1\n- For French, press 2  \n- For Italian, press 3\n- For English, press 4"

/-- `CallSession._handle_welcome_state`: unconditionally move to
`language_select` and emit the multilingual language menu. -/
def handle_welcome_state (s : CallSession) (_user_message : String) :
    TurnResult :=
  { session := { s with call_state := "language_select" }
    reply := welcome_reply
    genCalls := 0
    transferCalls := 0 }

/-- Localized option menu emitted after a language is chosen
(`CallSession._handle_language_selection`, per-branch literals). -/
def language_options_reply (lang : String) : String :=
  if lang = "nl" then
    "Dank je wel! Kies een optie:\n- Voor afhaal, druk 1\n- Voor reservering, druk 2\n- Voor andere vragen, druk 3"
  else if lang = "fr" then
    "Merci! Choisissez une option:\n- Pour emporter, appuyez sur 1\n- Pour réservation, appuyez sur 2\n- Pour autres questions, appuyez sur 3"
  else if lang = "it" then
    "Grazie! Scegli un\x27opzione:\n- Per asporto, premi 1\n- Per prenotazione, premi 2\n- Per altre domande, premi 3"
  else
    "Thank you! Choose an option:\n- For takeaway, press 1\n- For reservation, press 2\n- For other questions, press 3"

/-- `CallSession._handle_language_selection`: keyword/digit matching in source
order; first satisfied branch wins; no match re-prompts. -/
def handle_language_selection (s : CallSession) (user_message : String) :
    TurnResult :=
  if pyIn "1" user_message || pyIn "een" (pyLower user_message)
      || pyIn "nederlands" (pyLower user_message) then
    { session := { s with selected_language := "nl", language := "nl", call_state := "menu_select" }
      reply := language_options_reply "nl", genCalls := 0, transferCalls := 0 }
  else if pyIn "2" user_message || pyIn "deux" (pyLower user_message)
      || pyIn "français" (pyLower user_message) then
    { session := { s with selected_language := "fr", language := "fr", call_state := "menu_select" }
      reply := language_options_reply "fr", genCalls := 0, transferCalls := 0 }
  else if pyIn "3" user_message || pyIn "tre" (pyLower user_message)
      || pyIn "italiano" (pyLower user_message) then
    { session := { s with selected_language := "it", language := "it", call_state := "menu_select" }
      reply := language_options_reply "it", genCalls := 0, transferCalls := 0 }
  else if pyIn "4" user_message || pyIn "four" (pyLower user_message)
      || pyIn "english" (pyLower user_message) then
    { session := { s with selected_language := "en", language := "en", call_state := "menu_select" }
      reply := language_options_reply "en", genCalls := 0, transferCalls := 0 }
  else
    { session := s
      reply := "Please select your language by pressing:\n1 for Dutch, 2 for French, 3 for Italian, 4 for English"
      genCalls := 0, transferCalls := 0 }

/-- `CallSession._get_takeaway_greeting`: fixed greeting per selected
language. -/
def takeaway_greeting (lang : String) : String :=
  if lang = "nl" then
    "L\x27Osteria Deerlijk hier, met Sofia. Hoe kan ik u helpen met uw bestelling?"
  else if lang = "fr" then
    "L\x27Osteria Deerlijk ici, c\x27est Sofia. Comment puis-je vous aider avec votre commande?"
  else if lang = "it" then
    "L\x27Osteria Deerlijk, sono Sofia. Come posso aiutarla con il suo ordine?"
  else
    "L\x27Osteria Deerlijk here, this is Sofia. How can I help you with your order?"

/-- `CallSession._get_transfer_message`: fixed transfer notice per selected
language. -/
def transfer_message (lang : String) : String :=
  if lang = "nl" then
    "Ik verbind u door met het restaurant. Een moment geduld alstublieft, u wordt niet in de wacht gezet."
  else if lang = "fr" then
    "Je vous transfère au restaurant. Un moment s\x27il vous plaît, vous ne serez pas mis en attente."
  else if lang = "it" then
    "La collego al ristorante. Un momento per favore, non sarà messa in attesa."
  else
    "I\x27m transferring you to the restaurant. One moment please, you will not be put on hold."

/-- Localized re-prompt of `CallSession._handle_menu_selection`'s else
branch. -/
def menu_reprompt (lang : String) : String :=
  if lang = "nl" then
    "Kies een optie: 1 voor afhaal, 2 voor reservering, 3 voor vragen"
  else if lang = "fr" then
    "Choisissez: 1 pour emporter, 2 pour réservation, 3 pour questions"
  else if lang = "it" then
    "Scegli: 1 per asporto, 2 per prenotazione, 3 per domande"
  else
    "Choose: 1 for takeaway, 2 for reservation, 3 for questions"

/-- `CallSession._handle_menu_selection`: "1" starts the takeaway flow;
otherwise "2" or "3" moves to transfer and invokes `initiate_transfer` once;
anything else re-prompts with the localized options. -/
def handle_menu_selection (s : CallSession) (user_message : String) :
    TurnResult :=
  if pyIn "1" user_message then
    { session := { s with selected_option := "takeaway", call_state := "takeaway" }
      reply := takeaway_greeting s.selected_language
      genCalls := 0, transferCalls := 0 }
  else if pyIn "2" user_message || pyIn "3" user_message then
    { session := { s with selected_option := "transfer", call_state := "transfer" }
      reply := transfer_message s.selected_language
      genCalls := 0, transferCalls := 1 }
  else
    { session := s, reply := menu_reprompt s.selected_language
      genCalls := 0, transferCalls := 0 }

/-- The off-topic keyword list of `CallSession._handle_takeaway_flow`. -/
def off_topic_keywords : List String :=
  ["weather", "politics", "sports", "personal", "meteo", "politiek", "sport", "persoonlijk"]

/-- Off-topic detection: any keyword occurs in the lower-cased user message. -/
def isOffTopic (user_message : String) : Bool :=
  off_topic_keywords.any (fun k => pyIn k (pyLower user_message))

/-- Localized redirect-to-order reply for off-topic input. -/
def off_topic_reply (lang : String) : String :=
  if lang = "nl" then
    "Ik help graag met uw bestelling. Wat zou u willen bestellen van ons menu?"
  else if lang = "fr" then
    "Je suis là pour vous aider avec votre commande. Que souhaitez-vous commander de notre menu?"
  else if lang = "it" then
    "Sono qui per aiutarla con il suo ordine. Cosa desidera ordinare dal nostro menu?"
  else
    "I\x27m here to help with your order. What would you like to order from our menu?"

/-- The escalation phrase list scanned over the generated reply. -/
def transfer_phrases : List String :=
  ["collego al ristorante", "transfer", "don\x27t have", "niet weten", "ne sais pas"]

/-- Escalation detection: any transfer phrase occurs in the lower-cased
generated reply. -/
def escalates (response : String) : Bool :=
  transfer_phrases.any (fun p => pyIn p (pyLower response))

/-- Fixed Dutch reply of the takeaway flow when the OpenAI client was never
initialized. -/
def service_unavailable_reply : String :=
  "Sorry, de service is momenteel niet beschikbaar. Ik verbind u door met het restaurant."

/-- Fixed Dutch reply of the takeaway flow's exception handler. -/
def generation_error_reply : String :=
  "Sorry, ik heb dat niet goed begrepen. Kunt u dat herhalen?"

/-- `CallSession._handle_takeaway_flow`. Off-topic input short-circuits with a
localized redirect and no collaborator call. With no OpenAI client the fixed
Dutch unavailable reply is returned (history untouched). Otherwise one
chat-completion call is made: on exception the fixed Dutch apology is returned
(history untouched); on success escalation phrases may flip the state to
transfer and invoke `initiate_transfer`, then the (user, assistant) pair is
appended to the history. The `_current_menu` argument only feeds the system
prompt and affects no control flow. -/
def handle_takeaway_flow (openaiAvailable : Bool) (gen : GenResult)
    (s : CallSession) (user_message : String) (_current_menu : String) :
    TurnResult :=
  if isOffTopic user_message then
    { session := s, reply := off_topic_reply s.selected_language
      genCalls := 0, transferCalls := 0 }
  else if openaiAvailable = false then
    { session := s, reply := service_unavailable_reply
      genCalls := 0, transferCalls := 0 }
  else
    match gen with
    | .err =>
      { session := s, reply := generation_error_reply
        genCalls := 1, transferCalls := 0 }
    | .ok response =>
      let esc := escalates response
      let s1 := if esc then { s with call_state := "transfer" } else s
      let s2 := { s1 with conversation_history := s1.conversation_history ++ [⟨"user", user_message⟩, ⟨"assistant", response⟩] }
      { session := s2, reply := response
        genCalls := 1, transferCalls := if esc then 1 else 0 }

/-- Per-turn environment: whether the OpenAI client exists, the outcome the
chat-completion collaborator would produce, and the formatted menu snapshot. -/
structure GenEnv where
  openaiAvailable : Bool
  gen : GenResult
  current_menu : String
deriving DecidableEq, Repr

/-- `CallSession.generate_ai_response`'s state dispatch (the menu-cache
refresh step that precedes it is modelled separately by `needs_refresh` /
`fetch_restaurant_menu`; it alters no dialog control flow). The final else
branch covers the transfer state: fixed transfer message, no collaborator
call. -/
def generate_ai_response (env : GenEnv) (s : CallSession)
    (user_message : String) : TurnResult :=
  if s.call_state = "welcome" then handle_welcome_state s user_message
  else if s.call_state = "language_select" then
    handle_language_selection s user_message
  else if s.call_state = "menu_select" then
    handle_menu_selection s user_message
  else if s.call_state = "takeaway" then
    handle_takeaway_flow env.openaiAvailable env.gen s user_message
      env.current_menu
  else
    { session := s, reply := transfer_message s.selected_language
      genCalls := 0, transferCalls := 0 }

/-- Run a sequence of generation turns; returns the final session and the
total number of chat-completion invocations made along the way. -/
def runTurns (s : CallSession) : List (GenEnv × String) → CallSession × Nat
  | [] => (s, 0)
  | (env, msg) :: rest =>
    ((runTurns (generate_ai_response env s msg).session rest).1,
      (generate_ai_response env s msg).genCalls
        + (runTurns (generate_ai_response env s msg).session rest).2)

/-- The process-wide menu cache (`menu_cache` in `main.py`): optional fetched
data and the timestamp (in whole seconds) of the last successful fetch. -/
structure MenuCache where
  data : Option (List String)
  last_updated : Option Nat
deriving DecidableEq, Repr

/-- Python truthiness of `not menu_cache["data"]`: `None` or an empty list is
falsy. -/
def pyNotData : Option (List String) → Bool
  | none => true
  | some l => l.isEmpty

/-- Python `timedelta.seconds` for a non-negative delta of `elapsed` whole
seconds: the seconds component after normalizing out whole days. -/
def timedelta_seconds (elapsed : Nat) : Nat := elapsed % 86400

/-- The refresh trigger of `CallSession.generate_ai_response` (and of the
`/api/chat` route): fetch when data is falsy, the timestamp is absent, or
`(now - last_updated).seconds > 3600`. -/
def needs_refresh (cache : MenuCache) (now : Nat) : Bool :=
  pyNotData cache.data || cache.last_updated.isNone ||
    decide (timedelta_seconds (now - cache.last_updated.getD 0) > 3600)

/-- Modelled from the spec: "a consumer must trigger a refresh when `data` is
absent or `fetchedAt` is older than a fixed staleness threshold (1 hour)" —
the refresh condition the spec and claim C2 describe, with true elapsed
seconds rather than a day-normalized component. -/
def spec_needs_refresh (cache : MenuCache) (now : Nat) : Bool :=
  cache.data.isNone || cache.last_updated.isNone ||
    decide (now - cache.last_updated.getD 0 > 3600)

/-- `fetch_restaurant_menu`: on success the cache is overwritten with the new
data and the current time; on failure the cache is left unchanged. -/
def fetch_restaurant_menu (cache : MenuCache) (now : Nat)
    (result : Option (List String)) : MenuCache :=
  match result with
  | some menu => { data := some menu, last_updated := some now }
  | none => cache

/-- The JSON body `CallSession.speak_response` posts to the Cartesia TTS API
(header fields aside). -/
structure TtsRequest where
  model_id : String
  transcript : String
  voice_mode : String
  voice_id : String
  container : String
  encoding : String
  sample_rate : Nat
  language : String
deriving DecidableEq, Repr

/-- The synthesis request built by `CallSession.speak_response`: every field
except the transcript is a hardcoded constant; in particular the language is
always "nl" and the voice id is fixed, whatever the session's selected
language. -/
def speak_request (_s : CallSession) (text : String) : TtsRequest :=
  { model_id := "sonic-multilingual"
    transcript := text
    voice_mode := "id"
    voice_id := "a0e99841-438c-4a64-b679-ae501e7d6091"
    container := "raw"
    encoding := "pcm_mulaw"
    sample_rate := 8000
    language := "nl" }

/-- Events a Twilio media-stream WebSocket can deliver, plus a marker for an
exception raised while processing an event. -/
inductive StreamEvent where
  | connected
  | start
  | media (payload : List Nat)
  | stop
  | other (name : String)
  | raiseError
deriving DecidableEq, Repr

/-- The event loop of `websocket_media_handler`: `stop` breaks the loop,
an exception aborts it, `media` feeds the session's audio buffer, other
events only log. An exhausted list models the channel disconnecting. None of
these paths touches the session registry. -/
def runMediaLoop (s : CallSession) : List StreamEvent → CallSession
  | [] => s
  | e :: rest =>
    match e with
    | .stop => s
    | .raiseError => s
    | .media payload => runMediaLoop (process_audio_chunk s payload).1 rest
    | _ => runMediaLoop s rest

/-- `websocket_media_handler`: register the fresh session under its call SID,
run the event loop (stop / disconnect / exception all land in the same
`finally`), then delete the SID from the registry if present. Returns the
final registry and session. -/
def websocket_media_handler (registry : Finset String) (call_sid : String)
    (events : List StreamEvent) : Finset String × CallSession :=
  let session := CallSession.init call_sid
  let reg := insert call_sid registry
  let finalSession := runMediaLoop session events
  (if call_sid ∈ reg then reg.erase call_sid else reg, finalSession)

theorem generate_dispatch_welcome (env : GenEnv) (s : CallSession)
    (msg : String) (h : s.call_state = "welcome") :
    generate_ai_response env s msg = handle_welcome_state s msg := by
  unfold generate_ai_response
  rw [h, if_pos rfl]

theorem generate_dispatch_menu_select (env : GenEnv) (s : CallSession)
    (msg : String) (h : s.call_state = "menu_select") :
    generate_ai_response env s msg = handle_menu_selection s msg := by
  unfold generate_ai_response
  rw [h, if_neg (by decide), if_neg (by decide), if_pos rfl]

theorem generate_dispatch_takeaway (env : GenEnv) (s : CallSession)
    (msg : String) (h : s.call_state = "takeaway") :
    generate_ai_response env s msg
      = handle_takeaway_flow env.openaiAvailable env.gen s msg
          env.current_menu := by
  unfold generate_ai_response
  rw [h, if_neg (by decide), if_neg (by decide), if_neg (by decide), if_pos rfl]

theorem generate_dispatch_transfer (env : GenEnv) (s : CallSession)
    (msg : String) (h : s.call_state = "transfer") :
    generate_ai_response env s msg
      = { session := s, reply := transfer_message s.selected_language,
          genCalls := 0, transferCalls := 0 } := by
  unfold generate_ai_response
  rw [h, if_neg (by decide), if_neg (by decide), if_neg (by decide),
    if_neg (by decide)]

/-- C9: on every exit path of the media WebSocket handler (normal stop event,
channel disconnect, or an exception during event processing), the call SID is
absent from the active-session registry once the handler returns. -/
theorem session_cleanup_on_all_exits (registry : Finset String)
    (call_sid : String) (events : List StreamEvent) :
    call_sid ∉ (websocket_media_handler registry call_sid events).1 := by
  unfold websocket_media_handler
  simp [Finset.mem_insert_self]

/-- C10: the synthesis request posted to the TTS collaborator is independent
of the session — same transcript, hardcoded language "nl" and one fixed voice
id — so two sessions differing only in selected language produce identical
requests for the same reply text. -/
theorem tts_request_ignores_session_language (text : String)
    (s1 s2 : CallSession) :
    speak_request s1 text = speak_request s2 text
    ∧ (speak_request s1 text).language = "nl"
    ∧ (speak_request s1 text).voice_id
        = "a0e99841-438c-4a64-b679-ae501e7d6091" :=
  ⟨rfl, rfl, rfl⟩

/-- C2: the menu-refresh trigger evaluated at a cache last updated 25 hours
(90000 s) ago: the code's `timedelta.seconds`-based check sees only
3600 s (the day-normalized component) and skips the refresh, while the spec's
staleness rule (elapsed over one hour) demands one. -/
theorem menu_refresh_divergence_at_25_hours :
    needs_refresh ⟨some ["pizza"], some 0⟩ 90000 = false
    ∧ spec_needs_refresh ⟨some ["pizza"], some 0⟩ 90000 = true
    ∧ timedelta_seconds (90000 - 0) = 3600 := by
  refine ⟨by decide, by decide, by decide⟩

/-- C3 counterexample: a freshly constructed call session does not start in
the welcome phase — `CallSession.__init__` sets `call_state` to "takeaway". -/
theorem fresh_session_not_in_welcome :
    (CallSession.init "CA123").call_state ≠ "welcome" := by decide

/-- C3 amended: a new session starts directly in the takeaway (task-flow)
phase with Dutch preselected; the welcome handler — reached only if a session
is ever in the welcome phase — transitions to language selection and emits the
multilingual language menu. -/
theorem fresh_session_defaults_and_welcome_transition (sid : String)
    (env : GenEnv) (s : CallSession) (msg : String)
    (hwelcome : s.call_state = "welcome") :
    (CallSession.init sid).call_state = "takeaway"
    ∧ (CallSession.init sid).selected_language = "nl"
    ∧ (CallSession.init sid).language = "nl"
    ∧ (generate_ai_response env s msg).session.call_state = "language_select"
    ∧ (generate_ai_response env s msg).reply = welcome_reply := by
  rw [generate_dispatch_welcome env s msg hwelcome]
  exact ⟨rfl, rfl, rfl, rfl, rfl⟩

theorem fresh_session_defaults_and_welcome_transition_witness :
    (CallSession.init "CA9").call_state = "takeaway"
    ∧ (generate_ai_response ⟨true, GenResult.ok "x", ""⟩
        { CallSession.init "CA9" with call_state := "welcome" }
        "hallo").session.call_state = "language_select" := by
  have h := fresh_session_defaults_and_welcome_transition "CA9"
    ⟨true, GenResult.ok "x", ""⟩
    { CallSession.init "CA9" with call_state := "welcome" } "hallo" rfl
  exact ⟨h.1, h.2.2.2.1⟩

/-- C5 counterexample: with the transcription client never initialized,
`transcribe_audio` returns the demo placeholder "test input" — not empty
text — and the caller's guard then proceeds with downstream processing. -/
theorem transcription_unavailable_not_empty :
    transcribe_audio false TranscribeOutcome.err = "test input"
    ∧ transcribe_audio false TranscribeOutcome.err ≠ ""
    ∧ transcribe_and_respond_proceeds
        (transcribe_audio false TranscribeOutcome.err) = true := by
  refine ⟨rfl, by decide, by decide⟩

/-- C5 amended: when the transcription collaborator raises, the operation
returns empty text, and the caller skips downstream processing exactly when
the stripped text is empty; but when the client was never initialized the
fixed placeholder "test input" is returned instead, so that turn proceeds. -/
theorem transcription_failure_handling :
    transcribe_audio true TranscribeOutcome.err = ""
    ∧ (∀ t : String,
        transcribe_and_respond_proceeds t = false ↔ pyStrip t = "")
    ∧ (∀ o : TranscribeOutcome, transcribe_audio false o = "test input") := by
  refine ⟨rfl, ?_, fun o => rfl⟩
  intro t
  unfold transcribe_and_respond_proceeds
  constructor
  · intro h
    have := Bool.not_eq_false' .. ▸ h
    simpa using this
  · intro h
    simp [h]


/-- C1 counterexample: an apology/unavailable fallback turn of the takeaway
flow leaves the conversation history unchanged (growth 0, not 2): with the
generation collaborator unavailable, the fixed Dutch unavailable reply is
returned and nothing is appended. -/
theorem history_growth_counterexample :
    (handle_takeaway_flow false GenResult.err (CallSession.init "CA1") "ik wil graag twee pizza margherita bestellen" "").reply = service_unavailable_reply
    ∧ (handle_takeaway_flow false GenResult.err (CallSession.init "CA1") "ik wil graag twee pizza margherita bestellen" "").session.conversation_history.length = 0
    ∧ (CallSession.init "CA1").conversation_history.length + 2 ≠ 0 := by
  refine ⟨by decide, by decide, by decide⟩

/-- C1 amended: a successful generation turn of the takeaway flow appends
exactly one user turn followed by one assistant turn (history grows by 2);
the apology/unavailable fallback turns (collaborator unavailable, or the
collaborator raising) leave the history unchanged (growth 0). -/
theorem history_growth_by_outcome (s : CallSession)
    (msg menu reply : String) (g : GenResult)
    (hoff : isOffTopic msg = false) :
    ((handle_takeaway_flow true (GenResult.ok reply) s msg menu).session.conversation_history
      = s.conversation_history ++ [⟨"user", msg⟩, ⟨"assistant", reply⟩])
    ∧ ((handle_takeaway_flow true (GenResult.ok reply) s msg menu).session.conversation_history.length
      = s.conversation_history.length + 2)
    ∧ ((handle_takeaway_flow false g s msg menu).session.conversation_history
      = s.conversation_history)
    ∧ ((handle_takeaway_flow true GenResult.err s msg menu).session.conversation_history
      = s.conversation_history) := by
  unfold handle_takeaway_flow
  refine ⟨?_, ?_, ?_, ?_⟩
  · cases h : escalates reply <;> simp [hoff, h]
  · cases h : escalates reply <;> simp [hoff, h]
  · simp [hoff]
  · simp [hoff]

theorem history_growth_by_outcome_witness :
    (handle_takeaway_flow true (GenResult.ok "Prima, dat is genoteerd!") (CallSession.init "CAW1") "een pizza quattro stagioni graag" "menu").session.conversation_history.length
      = (CallSession.init "CAW1").conversation_history.length + 2 :=
  (history_growth_by_outcome (CallSession.init "CAW1")
    "een pizza quattro stagioni graag" "menu" "Prima, dat is genoteerd!"
    GenResult.err (by decide)).2.1

theorem rational_duration_iff (b : Nat) :
    ((b : ℚ) / 8000 * 1000 ≥ 1000) ↔ 8000 ≤ b := by
  rw [ge_iff_le, div_mul_eq_mul_div,
    le_div_iff₀ (by norm_num : (0 : ℚ) < 8000)]
  constructor
  · intro h
    have h3 : ((1000 * 8000 : ℕ) : ℚ) ≤ ((b * 1000 : ℕ) : ℚ) := by
      push_cast
      linarith
    have h4 := Nat.cast_le.mp h3
    omega
  · intro h
    have h3 : (1000 * 8000 : ℕ) ≤ b * 1000 := by omega
    have h4 := (Nat.cast_le (α := ℚ)).mpr h3
    push_cast at h4
    linarith

/-- C4 counterexample: a converter buffering exactly 8000 bytes is ready per
the claim's formula (`should_transcribe` is that formula's direct
transcription), yet the pipeline's actual drain-and-transcribe condition in
`CallSession.process_audio_chunk` — buffered length strictly above 16000 —
does not fire when a fresh session receives 8000 buffered bytes. -/
theorem segmenter_readiness_counterexample :
    TwilioAudioConverter.should_transcribe ⟨8000, [List.replicate 8000 0], 1000⟩ = true
    ∧ (process_audio_chunk (CallSession.init "CA2") (List.replicate 8000 0)).2 = false := by
  constructor
  · unfold TwilioAudioConverter.should_transcribe
    rw [decide_eq_true_eq]
    have h : ((([List.replicate 8000 (0 : Nat)].map List.length).sum : ℚ)) = 8000 := by
      rw [List.map_cons, List.map_nil, List.length_replicate, List.sum_cons,
        List.sum_nil]
      norm_num
    rw [h]
    norm_num
  · unfold process_audio_chunk
    have hb : (CallSession.init "CA2").audio_buffer = [] := rfl
    have h : ¬ (((CallSession.init "CA2").audio_buffer ++ List.replicate 8000 (0 : Nat)).length > 16000) := by
      rw [hb, List.nil_append, List.length_replicate]
      omega
    rw [if_neg h]

/-- C4 amended: the converter's readiness predicate
`TwilioAudioConverter.should_transcribe` satisfies the claimed iff — with
sample rate 8000 and minimum duration 1000 ms it is true exactly when the
buffered byte count `b` satisfies `b / 8000 * 1000 ≥ 1000` in exact
arithmetic, i.e. exactly when `b ≥ 8000` (ready at 8000, not at 7999) —
while the live pipeline's drain condition in
`CallSession.process_audio_chunk` is the strict comparison
`buffered bytes > 16000`, which is not of that form at its boundary. -/
theorem segmenter_readiness (c : TwilioAudioConverter)
    (h8 : c.sample_rate = 8000) (h1 : c.min_duration_ms = 1000)
    (s : CallSession) (chunk : List Nat) :
    (c.should_transcribe = true
      ↔ (((c.audio_buffer.map List.length).sum : ℚ) / 8000) * 1000 ≥ 1000)
    ∧ (c.should_transcribe = true
      ↔ 8000 ≤ (c.audio_buffer.map List.length).sum)
    ∧ ((process_audio_chunk s chunk).2 = true
      ↔ 16000 < s.audio_buffer.length + chunk.length) := by
  refine ⟨?_, ?_, ?_⟩
  · unfold TwilioAudioConverter.should_transcribe
    rw [h8, h1, decide_eq_true_eq]
    norm_num
  · unfold TwilioAudioConverter.should_transcribe
    rw [h8, h1, decide_eq_true_eq]
    have hc : ((8000 : ℕ) : ℚ) = 8000 := by norm_num
    have hm : ((1000 : ℕ) : ℚ) = 1000 := by norm_num
    rw [hc, hm]
    exact rational_duration_iff _
  · unfold process_audio_chunk
    by_cases h : (s.audio_buffer ++ chunk).length > 16000
    · rw [if_pos h]
      rw [List.length_append] at h
      simpa using h
    · rw [if_neg h]
      rw [List.length_append] at h
      simpa using h

theorem segmenter_readiness_witness :
    TwilioAudioConverter.should_transcribe ⟨8000, [List.replicate 8000 0], 1000⟩ = true
    ∧ TwilioAudioConverter.should_transcribe ⟨8000, [List.replicate 7999 0], 1000⟩ = false := by
  constructor
  · rw [(segmenter_readiness ⟨8000, [List.replicate 8000 0], 1000⟩ rfl rfl
      (CallSession.init "CAW2") []).2.1]
    rw [List.map_cons, List.map_nil, List.length_replicate, List.sum_cons,
      List.sum_nil]
    omega
  · have h := (segmenter_readiness ⟨8000, [List.replicate 7999 0], 1000⟩
      rfl rfl (CallSession.init "CAW2") []).2.1
    rw [Bool.eq_false_iff]
    intro hc
    have h2 := h.mp hc
    rw [List.map_cons, List.map_nil, List.length_replicate, List.sum_cons,
      List.sum_nil] at h2
    omega

/-- C6 counterexample: with the generation collaborator unavailable during a
takeaway turn, a session whose selected language is French receives exactly
the same reply as a Dutch session — the fixed Dutch unavailable string — so
the fallback reply is not localized to the session's selected language. -/
theorem takeaway_failure_reply_counterexample :
    (handle_takeaway_flow false GenResult.err { CallSession.init "CA5" with selected_language := "fr", language := "fr" } "je veux commander une pizza" "").reply
      = (handle_takeaway_flow false GenResult.err (CallSession.init "CA5") "je veux commander une pizza" "").reply
    ∧ (handle_takeaway_flow false GenResult.err { CallSession.init "CA5" with selected_language := "fr", language := "fr" } "je veux commander une pizza" "").reply
      = service_unavailable_reply := by
  refine ⟨by decide, by decide⟩

/-- C6 amended: if generation fails or the collaborator is unavailable during
a takeaway turn, the reply is one of two fixed Dutch strings (the unavailable
notice when the client was never initialized, the re-prompt apology on an
exception) regardless of the session's selected language; no transfer is
initiated, the phase stays takeaway, and the history is untouched. -/
theorem takeaway_failure_fixed_dutch (env : GenEnv) (s : CallSession)
    (msg : String) (hstate : s.call_state = "takeaway")
    (hoff : isOffTopic msg = false)
    (hfail : env.openaiAvailable = false ∨ env.gen = GenResult.err) :
    ((generate_ai_response env s msg).reply = service_unavailable_reply
      ∨ (generate_ai_response env s msg).reply = generation_error_reply)
    ∧ (generate_ai_response env s msg).session.call_state = "takeaway"
    ∧ (generate_ai_response env s msg).transferCalls = 0
    ∧ (generate_ai_response env s msg).session.conversation_history
      = s.conversation_history := by
  rw [generate_dispatch_takeaway env s msg hstate]
  unfold handle_takeaway_flow
  rcases hfail with hav | hgen
  · rw [hav]
    simp [hoff, hstate]
  · rw [hgen]
    cases hav2 : env.openaiAvailable <;> simp [hoff, hstate]

theorem takeaway_failure_fixed_dutch_witness :
    (generate_ai_response ⟨false, GenResult.ok "x", ""⟩ (CallSession.init "CA6") "ik wil bestellen").reply = service_unavailable_reply
    ∨ (generate_ai_response ⟨false, GenResult.ok "x", ""⟩ (CallSession.init "CA6") "ik wil bestellen").reply = generation_error_reply :=
  (takeaway_failure_fixed_dutch ⟨false, GenResult.ok "x", ""⟩
    (CallSession.init "CA6") "ik wil bestellen" rfl (by decide)
    (Or.inl rfl)).1

/-- C7: in the menu-select phase, an input containing "1" moves to the
takeaway flow with the localized task greeting (the fixed Dutch string when
the selected language is nl) and no transfer call; otherwise an input
containing "2" or "3" moves to transfer, invokes `initiate_transfer` exactly
once and returns the localized transfer message; any other input stays in
menu-select and re-prompts with the localized options. -/
theorem menu_selection_behaviour (env : GenEnv) (s : CallSession)
    (msg : String) (hstate : s.call_state = "menu_select") :
    (pyIn "1" msg = true →
      (generate_ai_response env s msg).session.call_state = "takeaway"
      ∧ (generate_ai_response env s msg).reply
        = takeaway_greeting s.selected_language
      ∧ (s.selected_language = "nl" →
        (generate_ai_response env s msg).reply
          = "L\x27Osteria Deerlijk hier, met Sofia. Hoe kan ik u helpen met uw bestelling?")
      ∧ (generate_ai_response env s msg).transferCalls = 0)
    ∧ (pyIn "1" msg = false →
      (pyIn "2" msg = true ∨ pyIn "3" msg = true) →
      (generate_ai_response env s msg).session.call_state = "transfer"
      ∧ (generate_ai_response env s msg).transferCalls = 1
      ∧ (generate_ai_response env s msg).reply
        = transfer_message s.selected_language)
    ∧ (pyIn "1" msg = false → pyIn "2" msg = false → pyIn "3" msg = false →
      (generate_ai_response env s msg).session.call_state = "menu_select"
      ∧ (generate_ai_response env s msg).reply
        = menu_reprompt s.selected_language
      ∧ (generate_ai_response env s msg).transferCalls = 0) := by
  rw [generate_dispatch_menu_select env s msg hstate]
  unfold handle_menu_selection
  refine ⟨?_, ?_, ?_⟩
  · intro h1
    refine ⟨by simp [h1], by simp [h1], ?_, by simp [h1]⟩
    intro hl
    rw [hl]
    simp [h1, takeaway_greeting]
  · intro h1 h23
    rcases h23 with h2 | h3
    · simp [h1, h2]
    · simp [h1, h3]
  · intro h1 h2 h3
    simp [h1, h2, h3, hstate]

theorem menu_selection_behaviour_witness :
    (generate_ai_response ⟨true, GenResult.ok "x", ""⟩ { CallSession.init "CA4" with call_state := "menu_select" } "1").session.call_state = "takeaway"
    ∧ (generate_ai_response ⟨true, GenResult.ok "x", ""⟩ { CallSession.init "CA4" with call_state := "menu_select" } "1").reply
      = "L\x27Osteria Deerlijk hier, met Sofia. Hoe kan ik u helpen met uw bestelling?" := by
  have h := (menu_selection_behaviour ⟨true, GenResult.ok "x", ""⟩
    { CallSession.init "CA4" with call_state := "menu_select" } "1" rfl).1
    (by decide)
  exact ⟨h.1, h.2.2.1 rfl⟩

/-- C8: the transfer triggers (a menu-select input choosing option 2 or 3, or
an escalation phrase detected in a successful takeaway reply) set the phase to
transfer, and once a session's phase is transfer it stays transfer and no run
of subsequent turns ever invokes the generation collaborator. -/
theorem transfer_absorbing_no_generation :
    (∀ s : CallSession, s.call_state = "transfer" →
      ∀ turns : List (GenEnv × String),
        (runTurns s turns).1.call_state = "transfer"
        ∧ (runTurns s turns).2 = 0)
    ∧ (∀ (env : GenEnv) (s : CallSession) (msg : String),
        s.call_state = "menu_select" → pyIn "1" msg = false →
        (pyIn "2" msg = true ∨ pyIn "3" msg = true) →
        (generate_ai_response env s msg).session.call_state = "transfer")
    ∧ (∀ (env : GenEnv) (s : CallSession) (msg resp : String),
        s.call_state = "takeaway" → isOffTopic msg = false →
        env.openaiAvailable = true → env.gen = GenResult.ok resp →
        escalates resp = true →
        (generate_ai_response env s msg).session.call_state = "transfer") := by
  refine ⟨?_, ?_, ?_⟩
  · intro s hs turns
    induction turns generalizing s with
    | nil => exact ⟨hs, rfl⟩
    | cons t rest ih =>
      obtain ⟨env, msg⟩ := t
      rw [runTurns, generate_dispatch_transfer env s msg hs]
      have h := ih s hs
      exact ⟨h.1, by rw [h.2]⟩
  · intro env s msg hstate h1 h23
    rw [generate_dispatch_menu_select env s msg hstate]
    unfold handle_menu_selection
    rcases h23 with h2 | h3
    · simp [h1, h2]
    · simp [h1, h3]
  · intro env s msg resp hstate hoff hav hgen hesc
    rw [generate_dispatch_takeaway env s msg hstate]
    unfold handle_takeaway_flow
    rw [hav, hgen]
    simp [hoff, hesc]

theorem transfer_absorbing_no_generation_witness :
    (runTurns { CallSession.init "CA7" with call_state := "transfer" } [(⟨true, GenResult.ok "prima", "menu"⟩, "nog een vraag")]).2 = 0
    ∧ (runTurns { CallSession.init "CA7" with call_state := "transfer" } [(⟨true, GenResult.ok "prima", "menu"⟩, "nog een vraag")]).1.call_state = "transfer" := by
  have h := transfer_absorbing_no_generation.1
    { CallSession.init "CA7" with call_state := "transfer" } rfl
    [(⟨true, GenResult.ok "prima", "menu"⟩, "nog een vraag")]
  exact ⟨h.2, h.1⟩
